import Mathlib

/-!
Shallow embedding of the mutex-run repository (TypeScript): the `mutexRun` core API
(`mutex-run.ts`), the legacy CLI entry (`main.ts`), and `utils.ts`.  Pure logic is
translated to Lean functions; filesystem and lock effects are modelled by explicit
state passing (`LockState`) and by event traces (`RunEvent`), and the behaviour of the
external collaborators (`proper-lockfile`, `node-retry`, `unlink`) is modelled from the
spec where noted.
-/

/-- Translation of `splitAtDoubleDash` from `utils.ts`: split an argument vector at the
first `--`; with no `--` present everything is the head. -/
def splitAtDoubleDash (argv : List String) : List String × List String :=
  match argv.findIdx? (fun a => a = "--") with
  | none => (argv, [])
  | some i => (argv.take i, argv.drop (i + 1))

/-- Externally visible lock state: whether this process's handle still holds the
OS-level advisory lock, and whether the marker file exists on disk. -/
structure LockState where
  lockHeld : Bool
  markerExists : Bool
deriving DecidableEq

/-- Modelled from the spec: releasing a `proper-lockfile` handle (external library)
succeeds when the lock is held and throws when the handle was already released. -/
def releaseStep (s : LockState) : Except String LockState :=
  if s.lockHeld then Except.ok ⟨false, s.markerExists⟩
  else Except.error ("Lock is already released")

/-- Modelled from the spec: `unlink(lockPath)` (external filesystem call) removes the
marker file, throwing ENOENT when it is absent. -/
def unlinkStep (s : LockState) : Except String LockState :=
  if s.markerExists then Except.ok ⟨s.lockHeld, false⟩
  else Except.error ("ENOENT")

/-- The two effectful steps a `cleanup` invocation may attempt, in the order they are
attempted. -/
inductive CleanupEvent
  | releaseAttempt
  | unlinkAttempt
deriving DecidableEq

/-- Outcome of one `cleanup` invocation: the resulting state, the steps attempted (in
order), and the error swallowed by the `catch` block, if any. -/
structure CleanupOutcome where
  state : LockState
  events : List CleanupEvent
  caught : Option String
deriving DecidableEq

/-- Translation of the `try` body of `cleanup` (mutex-run.ts lines 408-419, likewise
main.ts lines 113-124): `if (release) await release(); await unlink(lockPath);`.
A thrown error carries the state and events at the point of the throw. -/
def cleanupTry (hasRelease : Bool) (s : LockState) :
    Except (String × LockState × List CleanupEvent) (LockState × List CleanupEvent) :=
  if hasRelease then
    match releaseStep s with
    | Except.error e => Except.error (e, s, [CleanupEvent.releaseAttempt])
    | Except.ok s1 =>
      match unlinkStep s1 with
      | Except.error e =>
          Except.error (e, s1, [CleanupEvent.releaseAttempt, CleanupEvent.unlinkAttempt])
      | Except.ok s2 =>
          Except.ok (s2, [CleanupEvent.releaseAttempt, CleanupEvent.unlinkAttempt])
  else
    match unlinkStep s with
    | Except.error e => Except.error (e, s, [CleanupEvent.unlinkAttempt])
    | Except.ok s1 => Except.ok (s1, [CleanupEvent.unlinkAttempt])

/-- Translation of `cleanup`: the surrounding `catch` swallows any failure of the try
body (it is only logged), so the caller always gets a normal return. -/
def cleanupO (hasRelease : Bool) (s : LockState) : CleanupOutcome :=
  match cleanupTry hasRelease s with
  | Except.ok (s1, ev) => ⟨s1, ev, none⟩
  | Except.error (e, s1, ev) => ⟨s1, ev, some e⟩

/-- What `cleanup` returns to its caller, with the exception channel made explicit:
because of the `catch`, the result is always `Except.ok`. -/
def cleanupRun (hasRelease : Bool) (s : LockState) : Except String CleanupOutcome :=
  match cleanupTry hasRelease s with
  | Except.ok (s1, ev) => Except.ok ⟨s1, ev, none⟩
  | Except.error (e, s1, ev) => Except.ok ⟨s1, ev, some e⟩

/-- The `command` parameter of `mutexRun`: `string | string[]`. -/
inductive CommandArg
  | str (s : String)
  | arr (l : List String)
deriving DecidableEq

/-- The `stdio` option of `mutexRun`. -/
inductive StdioMode
  | inherit
  | pipe
  | ignore
deriving DecidableEq

/-- The `MutexRunOptions` record of mutex-run.ts (the `logger` field, a pure
diagnostics sink, is not modelled). -/
structure MutexRunOptions where
  lockFile : Option String
  wait : Option Bool
  timeout : Option Int
  staleTimeout : Option Int
  cwd : Option String
  env : Option (List (String × String))
  shell : Option Bool
  stdioMode : Option StdioMode
deriving DecidableEq

/-- `typeof command === "string"` (mutex-run.ts line 366). -/
def isStringCommand : CommandArg → Bool
  | CommandArg.str _ => true
  | CommandArg.arr _ => false

/-- `const cmdArray = isStringCommand ? [command] : command` (line 367). -/
def cmdArrayOf : CommandArg → List String
  | CommandArg.str s => [s]
  | CommandArg.arr l => l

/-- `options.lockFile ?? ".mutex-run.lock"` (line 376). -/
def resolvedLockFile (o : MutexRunOptions) : String :=
  o.lockFile.getD (".mutex-run.lock")

/-- `options.wait ?? true` (line 377). -/
def resolvedWait (o : MutexRunOptions) : Bool := o.wait.getD true

/-- `options.timeout ?? 0` (line 378). -/
def resolvedTimeout (o : MutexRunOptions) : Int := o.timeout.getD 0

/-- `options.staleTimeout ?? 600000` (line 379). -/
def resolvedStaleTimeout (o : MutexRunOptions) : Int := o.staleTimeout.getD 600000

/-- `options.stdio ?? "inherit"` (line 380). -/
def resolvedStdioMode (o : MutexRunOptions) : StdioMode := o.stdioMode.getD StdioMode.inherit

/-- `options.shell ?? (isStringCommand || process.platform === "win32")` (lines 383-384). -/
def resolvedShell (o : MutexRunOptions) (cmd : CommandArg) (win32 : Bool) : Bool :=
  o.shell.getD (isStringCommand cmd || win32)

/-- `const retryInterval = 1000` (line 394). -/
def retryInterval : Nat := 1000

/-- `const maxRetryInterval = 3000` (line 395). -/
def maxRetryInterval : Nat := 3000

/-- `const factor = 1.1` (line 396), as the exact rational 11/10. -/
def backoffFactor : ℚ := 11 / 10

/-- `const retries = wait ? Math.floor(3600000 / maxRetryInterval) : 0` (line 401);
the division is exact, so `Math.floor` coincides with natural division. -/
def mutexRetries (wait : Bool) : Nat :=
  if wait then 3600000 / maxRetryInterval else 0

/-- The retry object handed to `proper-lockfile` when waiting is enabled. -/
structure RetryCfg where
  retries : Nat
  factor : ℚ
  minTimeout : Nat
  maxTimeout : Nat
deriving DecidableEq

/-- The `retries` field of the lock options: a full retry configuration when waiting,
or the literal `0` (fail fast) when not (lines 426-433). -/
inductive RetriesOpt
  | cfg (c : RetryCfg)
  | failFast
deriving DecidableEq

/-- `retries: wait ? { retries, factor, minTimeout, maxTimeout } : 0` (lines 426-433). -/
def lockRetriesOpt (wait : Bool) : RetriesOpt :=
  if wait then
    RetriesOpt.cfg ⟨mutexRetries wait, backoffFactor, retryInterval, maxRetryInterval⟩
  else RetriesOpt.failFast

/-- The options object passed to `lockfile.lock` (lines 423-434). -/
structure LockOpts where
  realpath : Bool
  stale : Int
  retries : RetriesOpt
deriving DecidableEq

/-- `{ realpath: false, stale: staleTimeout, retries: ... }` (lines 423-434). -/
def mkLockOpts (wait : Bool) (staleTimeout : Int) : LockOpts :=
  ⟨false, staleTimeout, lockRetriesOpt wait⟩

/-- Modelled from the spec: the external retry machinery makes one initial attempt
plus the configured number of retries, so `retries: 0` (fail fast) means exactly one
acquisition attempt. -/
def attemptCount : RetriesOpt → Nat
  | RetriesOpt.failFast => 1
  | RetriesOpt.cfg c => c.retries + 1

/-- Modelled from the spec: the deterministic exponential backoff progression of the
external retry machinery: the delay before retry k is min(minTimeout * factor^k,
maxTimeout) milliseconds. -/
def backoffDelay (c : RetryCfg) (k : Nat) : ℚ :=
  min ((c.minTimeout : ℚ) * c.factor ^ k) (c.maxTimeout : ℚ)

/-- Total delay over the whole retry budget of a policy. -/
def cumulativeBackoff (c : RetryCfg) : ℚ :=
  (Finset.range c.retries).sum (fun k => backoffDelay c k)

/-- Why lock acquisition failed: the lock stayed held (or the lock primitive itself
errored), or the overall deadline fired first. -/
inductive LockFailCause
  | held
  | deadline (ms : Int)
deriving DecidableEq

/-- The message of the deadline error thrown by the timeout promise (line 450):
`Lock acquisition timeout after ${timeout}ms`. -/
def lockFailMessage : LockFailCause → String
  | LockFailCause.held => "Lock file is already being held"
  | LockFailCause.deadline ms => "Lock acquisition timeout after " ++ toString ms ++ "ms"

/-- How the in-flight `lockfile.lock` promise would behave, as seen by the race: the
time at which it settles and its outcome (`Except.ok` = acquired). -/
structure AcqEnv where
  settleTime : Nat
  lockOutcome : Except Unit Unit

/-- Translation of the acquisition block (lines 444-457): with a positive timeout the
lock promise is raced against a deadline promise and whichever settles first wins;
otherwise the lock promise alone is awaited.  The second component records whether the
lock promise is still pending after the await settles: `Promise.race` does not cancel
the loser, so when the deadline wins the underlying retry loop keeps running. -/
def raceAcquire (timeout : Int) (a : AcqEnv) : Except LockFailCause Unit × Bool :=
  if 0 < timeout then
    if timeout < (a.settleTime : Int) then
      (Except.error (LockFailCause.deadline timeout), true)
    else (a.lockOutcome.mapError (fun _ => LockFailCause.held), false)
  else (a.lockOutcome.mapError (fun _ => LockFailCause.held), false)

/-- Terminal state of the `execa` child promise: `resolved` is the fulfilled branch
(line 489) and `thrown` the rejected branch (line 498); in both, `exitCode` is the
possibly-absent numeric exit status. -/
inductive ChildTerminal
  | resolved (exitCode : Option Int) (out : Option String) (err : Option String)
  | thrown (exitCode : Option Int) (out : Option String) (err : Option String)
deriving DecidableEq

/-- The `MutexRunResult` record. -/
structure MutexRunResult where
  exitCode : Int
  stdout : Option String
  stderr : Option String
deriving DecidableEq

/-- Translation of the result construction (lines 493-497 and 502-508): on the
fulfilled branch `exitCode: res.exitCode ?? 0`, on the rejected branch
`typeof err?.exitCode === "number" ? err.exitCode : 1`; output fields only with
`stdio: "pipe"`. -/
def childResult (m : StdioMode) : ChildTerminal → MutexRunResult
  | ChildTerminal.resolved c out err =>
      ⟨c.getD 0, if m = StdioMode.pipe then out else none,
        if m = StdioMode.pipe then err else none⟩
  | ChildTerminal.thrown c out err =>
      ⟨c.getD 1, if m = StdioMode.pipe then out else none,
        if m = StdioMode.pipe then err else none⟩

/-- Errors `mutexRun` throws to its caller. -/
inductive RunError
  | noCommand
  | acquireFailed (lockPath : String) (cause : LockFailCause)
deriving DecidableEq

/-- Messages of the thrown errors: `No command specified` (line 369) and
`Failed to acquire lock at: ${lockPath}` (line 461). -/
def runErrorMessage : RunError → String
  | RunError.noCommand => "No command specified"
  | RunError.acquireFailed p _ => "Failed to acquire lock at: " ++ p

/-- Observable effectful steps of one run, in order. -/
inductive RunEvent
  | ensureMarker
  | lockAttempt (opts : LockOpts)
  | lockAcquired
  | execChild (cmd : String) (args : List String) (shell : Bool) (m : StdioMode)
  | releaseAttempt
  | unlinkAttempt
  | usageError
deriving DecidableEq

/-- Environment one run executes in: platform, initial marker existence, behaviour of
the in-flight lock acquisition, and the child's terminal state. -/
structure RunEnv where
  win32 : Bool
  marker0 : Bool
  acq : AcqEnv
  child : ChildTerminal

/-- Full observable outcome of one run: its event trace, the final marker-file state,
whether a lock acquisition is still pending in the background, and the value or error
given to the caller. -/
structure RunTrace where
  events : List RunEvent
  markerFinal : Bool
  lockPending : Bool
  result : Except RunError MutexRunResult

/-- Map cleanup steps into the run trace. -/
def mapCleanupEvent : CleanupEvent → RunEvent
  | CleanupEvent.releaseAttempt => RunEvent.releaseAttempt
  | CleanupEvent.unlinkAttempt => RunEvent.unlinkAttempt

/-- Translation of `mutexRun` (mutex-run.ts lines 361-510).  Control flow, in source
order: the empty-command check (line 368) throws before anything else; then
`ensureFile` creates the marker (line 405); then `lockfile.lock` raced with the
optional deadline (lines 444-457), whose failure is rethrown as `acquireFailed`
without running cleanup (lines 460-463); on success the child is executed and, on
either child outcome, `cleanup()` runs (release then unlink, from the
held-with-marker state) and a normalized result is returned (lines 489-509). -/
def mutexRunModel (command : CommandArg) (o : MutexRunOptions) (env : RunEnv) : RunTrace :=
  if (cmdArrayOf command).length = 0 then
    ⟨[], env.marker0, false, Except.error RunError.noCommand⟩
  else
    match raceAcquire (resolvedTimeout o) env.acq with
    | (Except.error cause, pending) =>
        ⟨[RunEvent.ensureMarker,
          RunEvent.lockAttempt (mkLockOpts (resolvedWait o) (resolvedStaleTimeout o))],
         true, pending,
         Except.error (RunError.acquireFailed (resolvedLockFile o) cause)⟩
    | (Except.ok _, pending) =>
        ⟨[RunEvent.ensureMarker,
          RunEvent.lockAttempt (mkLockOpts (resolvedWait o) (resolvedStaleTimeout o)),
          RunEvent.lockAcquired,
          RunEvent.execChild ((cmdArrayOf command).headD ("")) (cmdArrayOf command).tail
            (resolvedShell o command env.win32) (resolvedStdioMode o)]
          ++ ((cleanupO true ⟨true, true⟩).events.map mapCleanupEvent),
         (cleanupO true ⟨true, true⟩).state.markerExists, pending,
         Except.ok (childResult (resolvedStdioMode o) env.child)⟩

/-- Observable outcome of one legacy-CLI run. -/
structure CliTrace where
  events : List RunEvent
  markerFinal : Bool
  exitCode : Int

/-- Translation of the legacy CLI `run` (main.ts lines 84-246).  Control flow, in
source order: split the raw arguments at `--` (line 85, everything is the command when
no `--` is present, line 105); `ensureFile` (line 110); lock acquisition with the
deadline race (lines 141-200), exiting 1 on failure; only then the empty-command check
(lines 202-209), which runs `cleanup()` and exits 1; otherwise the child runs with
inherited stdio and `shell: process.platform === "win32"`, cleanup runs on either
outcome, and the child's normalized exit code is the process exit code. -/
def cliV1Run (rawArgs : List String) (wait : Bool) (timeout staleTimeout : Int)
    (env : RunEnv) : CliTrace :=
  let p := splitAtDoubleDash rawArgs
  let childArgv := if p.2.length = 0 then p.1 else p.2
  match raceAcquire timeout env.acq with
  | (Except.error _, _) =>
      ⟨[RunEvent.ensureMarker, RunEvent.lockAttempt (mkLockOpts wait staleTimeout)], true, 1⟩
  | (Except.ok _, _) =>
      if childArgv.length = 0 then
        ⟨[RunEvent.ensureMarker, RunEvent.lockAttempt (mkLockOpts wait staleTimeout),
          RunEvent.lockAcquired, RunEvent.usageError]
           ++ ((cleanupO true ⟨true, true⟩).events.map mapCleanupEvent),
         (cleanupO true ⟨true, true⟩).state.markerExists, 1⟩
      else
        ⟨[RunEvent.ensureMarker, RunEvent.lockAttempt (mkLockOpts wait staleTimeout),
          RunEvent.lockAcquired,
          RunEvent.execChild (childArgv.headD ("")) childArgv.tail env.win32
            StdioMode.inherit]
           ++ ((cleanupO true ⟨true, true⟩).events.map mapCleanupEvent),
         (cleanupO true ⟨true, true⟩).state.markerExists,
         (match env.child with
          | ChildTerminal.resolved c _ _ => c.getD 0
          | ChildTerminal.thrown c _ _ => c.getD 1)⟩

/-- Modelled from the spec: one acquisition attempt of the external lock primitive
(`proper-lockfile`) succeeds if the lock is unheld, succeeds by takeover if held but
the marker's age exceeds the stale threshold, and fails if actively held and fresh. -/
def singleAttempt (held : Bool) (markerAge staleTimeout : Int) : Bool :=
  if held = false then true
  else if staleTimeout < markerAge then true
  else false

/-- Options value with every field left to its default. -/
def defaultOpts : MutexRunOptions := ⟨none, none, none, none, none, none, none, none⟩

/-- Options value with waiting disabled. -/
def optsNoWait : MutexRunOptions := ⟨none, some false, none, none, none, none, none, none⟩

/-- Environment whose lock acquisition settles immediately and succeeds. -/
def envOkAcq : RunEnv :=
  ⟨false, false, ⟨0, Except.ok ()⟩, ChildTerminal.resolved (some 0) none none⟩

/-- Environment whose lock acquisition settles immediately and fails. -/
def envAcqFail : RunEnv :=
  ⟨false, true, ⟨0, Except.error ()⟩, ChildTerminal.resolved (some 0) none none⟩

/-- Environment whose child promise resolves with no numeric exit code. -/
def envResolvedNone : RunEnv :=
  ⟨false, true, ⟨0, Except.ok ()⟩, ChildTerminal.resolved none none none⟩

/-- C1: on every invocation, `cleanup` attempts lock release strictly before marker
removal (the attempted steps always form a sublist of [release, unlink], and with a
handle present the first attempted step is the release), and it swallows any failure
of either step, never raising to its caller. -/
theorem C1_cleanup_release_before_unlink (h : Bool) (s : LockState) :
    (cleanupO h s).events.Sublist [CleanupEvent.releaseAttempt, CleanupEvent.unlinkAttempt] ∧
    (h = true → (cleanupO h s).events.head? = some CleanupEvent.releaseAttempt) ∧
    cleanupRun h s = Except.ok (cleanupO h s) := by
  rcases s with ⟨hl, mk⟩
  cases h <;> cases hl <;> cases mk <;>
    exact ⟨by decide, fun hh => by first | rfl | exact absurd hh (by decide), rfl⟩

/-- C1 witness: the cleanup of a held lock with an existing marker attempts the
release first. -/
theorem C1_cleanup_release_before_unlink_witness :
    (cleanupO true ⟨true, true⟩).events.head? = some CleanupEvent.releaseAttempt :=
  (C1_cleanup_release_before_unlink true ⟨true, true⟩).2.1 rfl

/-- C8: invoking `cleanup` twice in succession never raises and leaves the same end
state as invoking it once; from the acquired state the end state is no held handle and
no marker file. -/
theorem C8_cleanup_idempotent (h : Bool) (s : LockState) :
    (cleanupO h (cleanupO h s).state).state = (cleanupO h s).state ∧
    cleanupRun h s = Except.ok (cleanupO h s) ∧
    cleanupRun h (cleanupO h s).state = Except.ok (cleanupO h (cleanupO h s).state) ∧
    (cleanupO true ⟨true, true⟩).state = ⟨false, false⟩ := by
  rcases s with ⟨hl, mk⟩
  cases h <;> cases hl <;> cases mk <;> exact ⟨rfl, rfl, rfl, rfl⟩

/-- C2 counterexample: a child promise that resolves without a numeric exit code is
normalized to the fallback 0, not to the fallback 1 the claim requires for every
unresolvable exit status. -/
theorem C2_counterexample :
    (mutexRunModel (CommandArg.arr (["cmd"])) defaultOpts envResolvedNone).result
      = Except.ok ⟨0, none, none⟩ ∧ (0 : Int) ≠ 1 :=
  ⟨rfl, by decide⟩

/-- C2 amended: the run result's exit code is obtained by normalization: a terminal
state carrying a numeric exit code forwards it verbatim on both the fulfilled and the
rejected branch; a rejected execution without a numeric exit code yields the fallback
1; a fulfilled execution without a numeric exit code yields the fallback 0; and on a
nonempty command with successful acquisition the run result is exactly this
normalization of the child's terminal state. -/
theorem C2_exit_normalization (m : StdioMode) (c : Int) (out err : Option String) :
    (childResult m (ChildTerminal.resolved (some c) out err)).exitCode = c ∧
    (childResult m (ChildTerminal.thrown (some c) out err)).exitCode = c ∧
    (childResult m (ChildTerminal.thrown none out err)).exitCode = 1 ∧
    (childResult m (ChildTerminal.resolved none out err)).exitCode = 0 ∧
    (∀ (cmd : CommandArg) (o : MutexRunOptions) (env : RunEnv),
      (cmdArrayOf cmd).length ≠ 0 →
      (raceAcquire (resolvedTimeout o) env.acq).1 = Except.ok () →
      (mutexRunModel cmd o env).result
        = Except.ok (childResult (resolvedStdioMode o) env.child)) := by
  refine ⟨rfl, rfl, rfl, rfl, ?_⟩
  intro cmd o env hne hok
  rcases hr : raceAcquire (resolvedTimeout o) env.acq with ⟨r, p⟩
  rw [hr] at hok
  have hr2 : r = Except.ok () := hok
  subst hr2
  simp only [mutexRunModel, hr]
  rw [if_neg hne]

/-- C2 witness: with a nonempty command and an immediately successful acquisition the
run result is the normalized child outcome. -/
theorem C2_exit_normalization_witness :
    ((cmdArrayOf (CommandArg.arr (["x"]))).length ≠ 0) ∧
    (mutexRunModel (CommandArg.arr (["x"])) defaultOpts envOkAcq).result
      = Except.ok (childResult (resolvedStdioMode defaultOpts) envOkAcq.child) :=
  ⟨by decide,
   (C2_exit_normalization StdioMode.inherit 0 none none).2.2.2.2
     (CommandArg.arr (["x"])) defaultOpts envOkAcq (by decide) rfl⟩

/-- C3 counterexample: with an empty command vector, the legacy CLI (main.ts lines
202-209) acquires the lock first and only then reports the usage error — the lock
acquisition precedes the empty-command check, contradicting the claim that the
CLI-level caller checks the empty command before any lock is acquired. -/
theorem C3_counterexample :
    (cliV1Run [] false 0 600000 envOkAcq).events
      = [RunEvent.ensureMarker, RunEvent.lockAttempt (mkLockOpts false 600000),
         RunEvent.lockAcquired, RunEvent.usageError,
         RunEvent.releaseAttempt, RunEvent.unlinkAttempt] ∧
    (cliV1Run [] false 0 600000 envOkAcq).events.indexOf RunEvent.lockAcquired
      < (cliV1Run [] false 0 600000 envOkAcq).events.indexOf RunEvent.usageError :=
  ⟨rfl, by decide⟩

/-- C3 amended: the core run operation rejects an empty command vector with the
distinct usage error before any lock acquisition is attempted (its trace is empty and
the marker is untouched, regardless of options and lock state); the CLI-level caller,
however, performs the empty-command check only after the lock is acquired, then runs
cleanup (release before unlink) and exits with code 1. -/
theorem C3_empty_command (o : MutexRunOptions) (env : RunEnv)
    (wait : Bool) (timeout staleTimeout : Int)
    (hacq : (raceAcquire timeout env.acq).1 = Except.ok ()) :
    mutexRunModel (CommandArg.arr []) o env
      = ⟨[], env.marker0, false, Except.error RunError.noCommand⟩ ∧
    runErrorMessage RunError.noCommand = "No command specified" ∧
    (cliV1Run [] wait timeout staleTimeout env).events
      = [RunEvent.ensureMarker, RunEvent.lockAttempt (mkLockOpts wait staleTimeout),
         RunEvent.lockAcquired, RunEvent.usageError,
         RunEvent.releaseAttempt, RunEvent.unlinkAttempt] ∧
    (cliV1Run [] wait timeout staleTimeout env).exitCode = 1 := by
  rcases hr : raceAcquire timeout env.acq with ⟨r, p⟩
  rw [hr] at hacq
  have hr2 : r = Except.ok () := hacq
  subst hr2
  refine ⟨rfl, rfl, ?_, ?_⟩ <;>
    simp [cliV1Run, hr, splitAtDoubleDash, cleanupO, cleanupTry, releaseStep,
      unlinkStep, mapCleanupEvent]

/-- C3 witness: with an immediately successful acquisition, the legacy CLI on an empty
command vector exits with code 1 (after having acquired the lock). -/
theorem C3_empty_command_witness :
    (raceAcquire 0 envOkAcq.acq).1 = Except.ok () ∧
    (cliV1Run [] true 0 600000 envOkAcq).exitCode = 1 :=
  ⟨rfl, (C3_empty_command defaultOpts envOkAcq true 0 600000 rfl).2.2.2⟩

/-- C4 counterexample: with timeout 5 racing an acquisition that would settle at time
10, the deadline wins but the in-flight acquisition attempt is not aborted — it is
still pending after the race settles, contradicting the claim that deadline expiry
aborts the in-flight attempt. -/
theorem C4_counterexample :
    raceAcquire 5 ⟨10, Except.ok ()⟩ = (Except.error (LockFailCause.deadline 5), true) ∧
    (raceAcquire 5 ⟨10, Except.ok ()⟩).2 ≠ false :=
  ⟨rfl, by decide⟩

/-- C4 amended: when a positive overall timeout T is configured, a deadline races
against the lock-acquisition attempt and whichever resolves first wins; deadline
expiry abandons the in-flight acquisition attempt (which is not cancelled and keeps
running in the background) and is reported with a distinct timeout error naming T,
distinguishable from the lock remaining held. -/
theorem C4_timeout_race (timeout : Int) (a : AcqEnv) (hpos : 0 < timeout) :
    (timeout < (a.settleTime : Int) →
      raceAcquire timeout a = (Except.error (LockFailCause.deadline timeout), true)) ∧
    ((a.settleTime : Int) ≤ timeout →
      raceAcquire timeout a
        = (a.lockOutcome.mapError (fun _ => LockFailCause.held), false)) ∧
    lockFailMessage (LockFailCause.deadline timeout)
      = "Lock acquisition timeout after " ++ toString timeout ++ "ms" ∧
    (∀ T, LockFailCause.deadline T ≠ LockFailCause.held) ∧
    (∀ T1 T2, LockFailCause.deadline T1 = LockFailCause.deadline T2 → T1 = T2) := by
  refine ⟨?_, ?_, rfl, fun T h => LockFailCause.noConfusion h,
    fun T1 T2 h => by injection h⟩
  · intro hlt
    simp [raceAcquire, if_pos hpos, if_pos hlt]
  · intro hle
    simp [raceAcquire, if_pos hpos, if_neg (not_lt.mpr hle)]

/-- C4 witness: a deadline of 7 racing an acquisition settling at 9 yields the
distinct timeout error and leaves the attempt pending. -/
theorem C4_timeout_race_witness :
    (0 : Int) < 7 ∧
    raceAcquire 7 ⟨9, Except.ok ()⟩ = (Except.error (LockFailCause.deadline 7), true) :=
  ⟨by decide, (C4_timeout_race 7 ⟨9, Except.ok ()⟩ (by decide)).1 (by decide)⟩

/-- C5: with the wait policy disabled, the retries option handed to the lock primitive
is the literal 0, meaning exactly one acquisition attempt, and a failure of that
attempt is immediately terminal: the run's trace stops at the attempt (no acquisition,
no child execution, no cleanup) and the caller gets the acquisition error. -/
theorem C5_failfast (o : MutexRunOptions) (cmd : CommandArg) (env : RunEnv)
    (hw : resolvedWait o = false)
    (hne : (cmdArrayOf cmd).length ≠ 0)
    (hfail : ∃ c, (raceAcquire (resolvedTimeout o) env.acq).1 = Except.error c) :
    lockRetriesOpt (resolvedWait o) = RetriesOpt.failFast ∧
    attemptCount (lockRetriesOpt (resolvedWait o)) = 1 ∧
    (mutexRunModel cmd o env).events
      = [RunEvent.ensureMarker,
         RunEvent.lockAttempt (mkLockOpts (resolvedWait o) (resolvedStaleTimeout o))] ∧
    (∃ cause, (mutexRunModel cmd o env).result
      = Except.error (RunError.acquireFailed (resolvedLockFile o) cause)) := by
  obtain ⟨c0, hc⟩ := hfail
  rcases hr : raceAcquire (resolvedTimeout o) env.acq with ⟨r, p⟩
  rw [hr] at hc
  have hc2 : r = Except.error c0 := hc
  subst hc2
  refine ⟨by rw [hw]; rfl, by rw [hw]; rfl, ?_, ⟨c0, ?_⟩⟩ <;>
    (simp only [mutexRunModel, hr]; rw [if_neg hne])

/-- C5 witness: disabling waiting gives the fail-fast retries value and a single
attempt. -/
theorem C5_failfast_witness :
    resolvedWait optsNoWait = false ∧
    (raceAcquire (resolvedTimeout optsNoWait) envAcqFail.acq).1
      = Except.error LockFailCause.held ∧
    attemptCount (lockRetriesOpt (resolvedWait optsNoWait)) = 1 :=
  ⟨rfl, rfl,
   (C5_failfast optsNoWait (CommandArg.arr (["x"])) envAcqFail rfl (by decide)
     ⟨LockFailCause.held, rfl⟩).2.1⟩

/-- C6: with waiting enabled, the retry configuration handed to the lock primitive is
exactly retries = 1200 = floor(3600000 / 3000), factor 11/10, initial interval 1000ms,
cap 3000ms; this configuration is what the run's lock attempt carries; the backoff
progression is the deterministic capped geometric sequence; and the cumulative wait it
allows is bounded by 3600000ms (one hour). -/
theorem C6_backoff_config (o : MutexRunOptions) (cmd : CommandArg) (env : RunEnv)
    (hw : resolvedWait o = true)
    (hne : (cmdArrayOf cmd).length ≠ 0) :
    (mkLockOpts (resolvedWait o) (resolvedStaleTimeout o)).retries
      = RetriesOpt.cfg ⟨1200, 11 / 10, 1000, 3000⟩ ∧
    mutexRetries true = 3600000 / 3000 ∧
    mutexRetries true = 1200 ∧
    RunEvent.lockAttempt (mkLockOpts (resolvedWait o) (resolvedStaleTimeout o))
      ∈ (mutexRunModel cmd o env).events ∧
    (∀ k, backoffDelay ⟨1200, 11 / 10, 1000, 3000⟩ k
      = min ((1000 : ℚ) * (11 / 10) ^ k) 3000) ∧
    cumulativeBackoff ⟨1200, 11 / 10, 1000, 3000⟩ ≤ 3600000 := by
  refine ⟨by rw [hw]; rfl, rfl, rfl, ?_, fun k => rfl, ?_⟩
  · rcases hr : raceAcquire (resolvedTimeout o) env.acq with ⟨r, p⟩
    cases r <;> (simp only [mutexRunModel, hr]; rw [if_neg hne]; simp)
  · have hb : ∀ k ∈ Finset.range 1200,
        backoffDelay ⟨1200, 11 / 10, 1000, 3000⟩ k ≤ (3000 : ℚ) :=
      fun k _ => min_le_right _ _
    calc cumulativeBackoff ⟨1200, 11 / 10, 1000, 3000⟩
        ≤ (Finset.range 1200).card • (3000 : ℚ) :=
          Finset.sum_le_card_nsmul _ _ _ hb
      _ = 3600000 := by rw [Finset.card_range]; norm_num

/-- C6 witness: the default options enable waiting and yield the 1200-retry budget. -/
theorem C6_backoff_config_witness :
    resolvedWait defaultOpts = true ∧ mutexRetries true = 1200 :=
  ⟨rfl, (C6_backoff_config defaultOpts (CommandArg.arr (["x"])) envOkAcq rfl
    (by decide)).2.2.1⟩

/-- C7: a single acquisition attempt succeeds if the lock is unheld, succeeds by
takeover if the marker is older than the stale threshold even though the holder never
released, and fails if the lock is actively held and fresh; the threshold defaults to
600000ms and is handed to the lock primitive as its `stale` option. -/
theorem C7_staleness (held : Bool) (markerAge staleTimeout : Int) (o : MutexRunOptions) :
    (held = false → singleAttempt held markerAge staleTimeout = true) ∧
    (held = true → staleTimeout < markerAge →
      singleAttempt held markerAge staleTimeout = true) ∧
    (held = true → markerAge ≤ staleTimeout →
      singleAttempt held markerAge staleTimeout = false) ∧
    (o.staleTimeout = none → resolvedStaleTimeout o = 600000) ∧
    (mkLockOpts (resolvedWait o) (resolvedStaleTimeout o)).stale
      = resolvedStaleTimeout o := by
  refine ⟨?_, ?_, ?_, ?_, rfl⟩
  · intro h
    simp [singleAttempt, h]
  · intro h1 h2
    simp [singleAttempt, h1, h2]
  · intro h1 h2
    simp [singleAttempt, h1, not_lt.mpr h2]
  · intro h
    simp [resolvedStaleTimeout, h]

/-- C7 witness: a held lock whose marker is 700000ms old is taken over under the
default 600000ms threshold. -/
theorem C7_staleness_witness :
    singleAttempt true 700000 600000 = true ∧
    resolvedStaleTimeout defaultOpts = 600000 :=
  ⟨(C7_staleness true 700000 600000 defaultOpts).2.1 rfl (by decide),
   (C7_staleness true 700000 600000 defaultOpts).2.2.2.1 rfl⟩

/-- C9: when lock acquisition fails, the cleanup sequence does not execute — the run's
trace contains neither a release attempt nor an unlink attempt — the caller gets the
fixed acquisition failure, and the marker file created by the ensure-exists step
persists. -/
theorem C9_no_cleanup_on_acquire_failure (cmd : CommandArg) (o : MutexRunOptions)
    (env : RunEnv)
    (hne : (cmdArrayOf cmd).length ≠ 0)
    (hfail : ∃ c, (raceAcquire (resolvedTimeout o) env.acq).1 = Except.error c) :
    RunEvent.releaseAttempt ∉ (mutexRunModel cmd o env).events ∧
    RunEvent.unlinkAttempt ∉ (mutexRunModel cmd o env).events ∧
    (∃ cause, (mutexRunModel cmd o env).result
      = Except.error (RunError.acquireFailed (resolvedLockFile o) cause)) ∧
    (mutexRunModel cmd o env).markerFinal = true := by
  obtain ⟨c0, hc⟩ := hfail
  rcases hr : raceAcquire (resolvedTimeout o) env.acq with ⟨r, p⟩
  rw [hr] at hc
  have hc2 : r = Except.error c0 := hc
  subst hc2
  refine ⟨?_, ?_, ⟨c0, ?_⟩, ?_⟩ <;>
    (simp only [mutexRunModel, hr]; rw [if_neg hne]; try simp)

/-- C9 witness: with a failing acquisition the marker file persists. -/
theorem C9_no_cleanup_on_acquire_failure_witness :
    ((cmdArrayOf (CommandArg.arr (["x"]))).length ≠ 0) ∧
    (mutexRunModel (CommandArg.arr (["x"])) defaultOpts envAcqFail).markerFinal = true :=
  ⟨by decide,
   (C9_no_cleanup_on_acquire_failure (CommandArg.arr (["x"])) defaultOpts envAcqFail
     (by decide) ⟨LockFailCause.held, rfl⟩).2.2.2⟩

/-- C10: every string-form command, including the empty string, is wrapped into a
one-element vector and accepted (the run never fails with the usage error); the usage
error is raised exactly for the zero-length array; and a string-form command defaults
to shell execution unless the shell option is explicitly set. -/
theorem C10_string_command (s : String) (o : MutexRunOptions) (w : Bool) (env : RunEnv) :
    cmdArrayOf (CommandArg.str s) = [s] ∧
    (cmdArrayOf (CommandArg.str s)).length = 1 ∧
    (o.shell = none → resolvedShell o (CommandArg.str s) w = true) ∧
    (∀ cmd : CommandArg, (cmdArrayOf cmd).length ≠ 0 →
      (mutexRunModel cmd o env).result ≠ Except.error RunError.noCommand) ∧
    (mutexRunModel (CommandArg.str s) o env).result ≠ Except.error RunError.noCommand ∧
    (mutexRunModel (CommandArg.arr []) o env).result = Except.error RunError.noCommand := by
  have hall : ∀ cmd : CommandArg, (cmdArrayOf cmd).length ≠ 0 →
      (mutexRunModel cmd o env).result ≠ Except.error RunError.noCommand := by
    intro cmd hne
    rcases hr : raceAcquire (resolvedTimeout o) env.acq with ⟨r, p⟩
    cases r <;> (simp only [mutexRunModel, hr]; rw [if_neg hne]; simp)
  refine ⟨rfl, rfl, ?_, hall, hall (CommandArg.str s) (by simp [cmdArrayOf]), rfl⟩
  intro h
  simp [resolvedShell, h, isStringCommand]

/-- C10 witness: the empty string is accepted as a command with shell defaulting to
true. -/
theorem C10_string_command_witness :
    defaultOpts.shell = none ∧
    resolvedShell defaultOpts (CommandArg.str ("")) false = true :=
  ⟨rfl, (C10_string_command ("") defaultOpts false envOkAcq).2.2.1 rfl⟩
